import Mathlib

/-!
Verification of the pose-signal processing and repetition-counting engine of
the AI-Trainer application (ex.py).

The Python source is shallowly embedded: angles (floats in the source) are
modelled as rationals, the per-frame rep-counting loop body of
process_camera_feed becomes an explicit step function on an explicit state
record, the trailing deque of raw angles becomes a list with FIFO eviction,
and the end-of-session scoring of save_session becomes a function returning
an explicit outcome (so the ZeroDivisionError path is visible). The geometric
angle computation (calculate_angle, numpy arctan2) is embedded over the
reals using the complex argument.
-/

/-- The target_angles entry of one exercise in exercise_data:
fields min, max, ideal (degrees). -/
structure TargetAngles where
  min : ℚ
  max : ℚ
  ideal : ℚ
deriving DecidableEq

/-- The four exercises of exercise_data. -/
inductive Exercise where
  | bicepCurl
  | pushUp
  | squat
  | shoulderPress
deriving DecidableEq

/-- The target_angles values of exercise_data (ex.py lines 96-157). -/
def target_angles : Exercise → TargetAngles
  | Exercise.bicepCurl => { min := 30, max := 160, ideal := 90 }
  | Exercise.pushUp => { min := 80, max := 160, ideal := 90 }
  | Exercise.squat => { min := 70, max := 170, ideal := 110 }
  | Exercise.shoulderPress => { min := 60, max := 170, ideal := 160 }

/-- generate_feedback (ex.py lines 986-1021): maps a smoothed angle and the
exercise's target angles to the feedback string, mirroring the branch
structure and branch order of the source. -/
def generate_feedback (angle : ℚ) (t : TargetAngles) (exercise_type : Exercise) : String :=
  match exercise_type with
  | Exercise.bicepCurl =>
      if angle > t.max - 10 then "Extend more"
      else if angle < t.min + 10 then "Curl Complete"
      else "Good Form"
  | Exercise.pushUp =>
      if angle > t.max - 10 then "Keep body straight"
      else if angle < t.min + 10 then "Good Form"
      else "Adjust your posture"
  | Exercise.squat =>
      if angle < t.min + 10 then "Too Low"
      else if angle > t.max - 10 then "Stand Up Straight"
      else "Good Squat"
  | Exercise.shoulderPress =>
      if angle > t.max - 10 then "Locked Out"
      else if angle < t.min + 10 then "Push Higher"
      else "Good Form"

/-- Claim C1 counterexample: on the push-up profile (min 80, max 160) the
mid-band angle 120, which the claim sends to the Good category, yields
the string "Adjust your posture", while the below-band angle 85 yields
"Good Form": the push-up branch of generate_feedback places the Good
category below min + 10, not in the middle band. -/
theorem claim_C1_counterexample :
    generate_feedback 120 (target_angles Exercise.pushUp) Exercise.pushUp
      = "Adjust your posture"
    ∧ generate_feedback 85 (target_angles Exercise.pushUp) Exercise.pushUp
      = "Good Form" := by
  constructor <;> norm_num [generate_feedback, target_angles]

/-- Claim C1 (amended): for bicep curl, squat and shoulder press the bands are
as the claim states, boundary angles included in the middle (Good) band; for
push-up the code instead returns "Good Form" strictly below min + 10,
"Keep body straight" strictly above max - 10, and "Adjust your posture" on
the closed middle band. The bicep-curl instances 95, 155 and 35 behave as
the claim states. -/
theorem claim_C1_amended :
    (∀ angle : ℚ,
      ((target_angles Exercise.bicepCurl).min + 10 ≤ angle →
        angle ≤ (target_angles Exercise.bicepCurl).max - 10 →
        generate_feedback angle (target_angles Exercise.bicepCurl) Exercise.bicepCurl
          = "Good Form")
      ∧ (angle > (target_angles Exercise.bicepCurl).max - 10 →
        generate_feedback angle (target_angles Exercise.bicepCurl) Exercise.bicepCurl
          = "Extend more")
      ∧ (angle < (target_angles Exercise.bicepCurl).min + 10 →
        generate_feedback angle (target_angles Exercise.bicepCurl) Exercise.bicepCurl
          = "Curl Complete")
      ∧ ((target_angles Exercise.squat).min + 10 ≤ angle →
        angle ≤ (target_angles Exercise.squat).max - 10 →
        generate_feedback angle (target_angles Exercise.squat) Exercise.squat
          = "Good Squat")
      ∧ (angle > (target_angles Exercise.squat).max - 10 →
        generate_feedback angle (target_angles Exercise.squat) Exercise.squat
          = "Stand Up Straight")
      ∧ (angle < (target_angles Exercise.squat).min + 10 →
        generate_feedback angle (target_angles Exercise.squat) Exercise.squat
          = "Too Low")
      ∧ ((target_angles Exercise.shoulderPress).min + 10 ≤ angle →
        angle ≤ (target_angles Exercise.shoulderPress).max - 10 →
        generate_feedback angle (target_angles Exercise.shoulderPress) Exercise.shoulderPress
          = "Good Form")
      ∧ (angle > (target_angles Exercise.shoulderPress).max - 10 →
        generate_feedback angle (target_angles Exercise.shoulderPress) Exercise.shoulderPress
          = "Locked Out")
      ∧ (angle < (target_angles Exercise.shoulderPress).min + 10 →
        generate_feedback angle (target_angles Exercise.shoulderPress) Exercise.shoulderPress
          = "Push Higher")
      ∧ ((target_angles Exercise.pushUp).min + 10 ≤ angle →
        angle ≤ (target_angles Exercise.pushUp).max - 10 →
        generate_feedback angle (target_angles Exercise.pushUp) Exercise.pushUp
          = "Adjust your posture")
      ∧ (angle > (target_angles Exercise.pushUp).max - 10 →
        generate_feedback angle (target_angles Exercise.pushUp) Exercise.pushUp
          = "Keep body straight")
      ∧ (angle < (target_angles Exercise.pushUp).min + 10 →
        generate_feedback angle (target_angles Exercise.pushUp) Exercise.pushUp
          = "Good Form"))
    ∧ generate_feedback 95 (target_angles Exercise.bicepCurl) Exercise.bicepCurl = "Good Form"
    ∧ generate_feedback 155 (target_angles Exercise.bicepCurl) Exercise.bicepCurl = "Extend more"
    ∧ generate_feedback 35 (target_angles Exercise.bicepCurl) Exercise.bicepCurl
        = "Curl Complete" := by
  refine ⟨fun angle => ?_,
    by norm_num [generate_feedback, target_angles],
    by norm_num [generate_feedback, target_angles],
    by norm_num [generate_feedback, target_angles]⟩
  refine ⟨?_, ?_, ?_, ?_, ?_, ?_, ?_, ?_, ?_, ?_, ?_, ?_⟩ <;>
    · simp only [generate_feedback, target_angles]
      intros
      split_ifs <;> first | rfl | linarith

/-- Claim C1 amended, witnessed at the concrete bicep-curl angle 95. -/
theorem claim_C1_witness :
    generate_feedback 95 (target_angles Exercise.bicepCurl) Exercise.bicepCurl
      = "Good Form" :=
  (claim_C1_amended.1 95).1 (by norm_num [target_angles]) (by norm_num [target_angles])

/-- The outcome of the end-of-session computation in save_session: either the
early return when session_angles is empty, the uncaught ZeroDivisionError
when max_deviation is zero, or the computed performance integer. -/
inductive SessionScore where
  | empty
  | divByZero
  | score (performance : ℤ)
deriving DecidableEq

/-- Python int() applied to a rational: truncation toward zero. -/
def python_int (q : ℚ) : ℤ :=
  if 0 ≤ q then ⌊q⌋ else -⌊-q⌋

/-- max_deviation as computed in save_session (ex.py lines 1054-1055). -/
def max_deviation (t : TargetAngles) : ℚ :=
  max (t.ideal - t.min) (t.max - t.ideal)

/-- One sample's deviation as appended in the save_session loop
(ex.py lines 1058-1060). -/
def deviation (t : TargetAngles) (angle : ℚ) : ℚ :=
  min 1 (|angle - t.ideal| / max_deviation t)

/-- avg_deviation of save_session (ex.py line 1062): mean of the deviations. -/
def avg_deviation (t : TargetAngles) (session_angles : List ℚ) : ℚ :=
  (session_angles.map (deviation t)).sum / ((session_angles.map (deviation t)).length : ℚ)

/-- The performance computation of save_session (ex.py lines 1047-1063):
early return on an empty angle list, ZeroDivisionError when max_deviation
is zero (the per-angle division abs(angle - target) / max_deviation), else
performance = int((1 - avg_deviation) * 100). -/
def save_session (t : TargetAngles) (session_angles : List ℚ) : SessionScore :=
  if session_angles.length = 0 then SessionScore.empty
  else if max_deviation t = 0 then SessionScore.divByZero
  else SessionScore.score (python_int ((1 - avg_deviation t session_angles) * 100))

/-- The truncation of the final session record's angle list
(ex.py line 1072): the first 100 recorded angles. -/
def session_record_angles (session_angles : List ℚ) : List ℚ :=
  session_angles.take 100

/-- Session scoring following the words of the spec (sections 4.5 and 7):
deviation is defined as zero when max_deviation is zero, and the score is
round((1 - mean(deviation)) * 100) clamped to the interval from 0 to 100. -/
def spec_performance_score (t : TargetAngles) (session_angles : List ℚ) : ℤ :=
  let dev : ℚ → ℚ := fun a =>
    if max_deviation t = 0 then 0 else min 1 (|a - t.ideal| / max_deviation t)
  let avg : ℚ := (session_angles.map dev).sum / ((session_angles.map dev).length : ℚ)
  max 0 (min 100 (round ((1 - avg) * 100)))

/-- Claim C2: on a degenerate profile with min = max = ideal = 90 and the
nonempty recorded angle list consisting of 90, save_session hits the
division by zero (ZeroDivisionError) instead of producing a score, while
the spec-side computation with the guard yields 100. -/
theorem claim_C2_code_evaluation :
    save_session { min := 90, max := 90, ideal := 90 } [(90 : ℚ)] = SessionScore.divByZero
    ∧ spec_performance_score { min := 90, max := 90, ideal := 90 } [(90 : ℚ)] = 100 := by
  constructor
  · norm_num [save_session, max_deviation]
  · norm_num [spec_performance_score, max_deviation]

/-- A list of rationals that all lie between 0 and 1 has a nonnegative sum
bounded by the list length. -/
lemma list_sum_nonneg_le_length (l : List ℚ) (h : ∀ x ∈ l, 0 ≤ x ∧ x ≤ 1) :
    0 ≤ l.sum ∧ l.sum ≤ (l.length : ℚ) := by
  induction l with
  | nil => simp
  | cons a l ih =>
      have ha := h a (List.mem_cons_self a l)
      have hl := ih (fun x hx => h x (List.mem_cons_of_mem a hx))
      constructor
      · simp only [List.sum_cons]
        linarith [ha.1, hl.1]
      · simp only [List.sum_cons, List.length_cons, Nat.cast_add, Nat.cast_one]
        linarith [ha.2, hl.2]

/-- Claim C3 counterexample: on the bicep-curl profile and the single recorded
angle 90.2 (written 451/5) the code computes int((1 - 1/350) * 100) = 99,
while the claimed formula round((1 - mean(deviation)) * 100) clamped to the
interval from 0 to 100 gives 100. -/
theorem claim_C3_counterexample :
    save_session (target_angles Exercise.bicepCurl) [(451 / 5 : ℚ)]
      = SessionScore.score 99
    ∧ spec_performance_score (target_angles Exercise.bicepCurl) [(451 / 5 : ℚ)] = 100 := by
  have habs : |(1 / 5 : ℚ)| = 1 / 5 := abs_of_pos (by norm_num)
  constructor
  · norm_num [save_session, max_deviation, avg_deviation, deviation, python_int,
      target_angles, habs, Int.floor_eq_iff]
  · norm_num [spec_performance_score, max_deviation, target_angles, habs,
      round_eq, Int.floor_eq_iff]

/-- Claim C3 (amended): for a nonempty recorded angle list and a profile with
positive max_deviation, the performance score is the floor (Python int
truncation of a nonnegative value) of (1 - mean(deviation)) * 100, and this
value already lies between 0 and 100 with no explicit clamping. -/
theorem claim_C3_amended (t : TargetAngles) (l : List ℚ) (hne : l ≠ [])
    (hmd : 0 < max_deviation t) :
    save_session t l = SessionScore.score ⌊(1 - avg_deviation t l) * 100⌋
    ∧ 0 ≤ ⌊(1 - avg_deviation t l) * 100⌋
    ∧ ⌊(1 - avg_deviation t l) * 100⌋ ≤ 100 := by
  have hlen : l.length ≠ 0 := by simpa using hne
  have hdev : ∀ x ∈ l.map (deviation t), 0 ≤ x ∧ x ≤ 1 := by
    intro x hx
    obtain ⟨a, _, rfl⟩ := List.mem_map.mp hx
    refine ⟨le_min zero_le_one (div_nonneg (abs_nonneg _) hmd.le), min_le_left _ _⟩
  have hsum := list_sum_nonneg_le_length _ hdev
  have hlpos : (0 : ℚ) < ((l.map (deviation t)).length : ℚ) := by
    have : 0 < l.length := Nat.pos_of_ne_zero hlen
    simpa using Nat.cast_pos.mpr this
  have havg0 : 0 ≤ avg_deviation t l := div_nonneg hsum.1 hlpos.le
  have havg1 : avg_deviation t l ≤ 1 := by
    rw [avg_deviation, div_le_one hlpos]
    exact hsum.2
  have hq0 : 0 ≤ (1 - avg_deviation t l) * 100 := by nlinarith
  have hq100 : (1 - avg_deviation t l) * 100 ≤ 100 := by nlinarith
  refine ⟨?_, Int.floor_nonneg.mpr hq0, ?_⟩
  · unfold save_session python_int
    rw [if_neg hlen, if_neg (ne_of_gt hmd), if_pos hq0]
  · have := Int.floor_le_floor hq100
    simpa using this

/-- Claim C3 amended, witnessed on the bicep-curl profile with the single
recorded angle 90.2. -/
theorem claim_C3_witness :
    save_session (target_angles Exercise.bicepCurl) [(451 / 5 : ℚ)]
      = SessionScore.score
          ⌊(1 - avg_deviation (target_angles Exercise.bicepCurl) [(451 / 5 : ℚ)]) * 100⌋
    ∧ 0 ≤ ⌊(1 - avg_deviation (target_angles Exercise.bicepCurl) [(451 / 5 : ℚ)]) * 100⌋
    ∧ ⌊(1 - avg_deviation (target_angles Exercise.bicepCurl) [(451 / 5 : ℚ)]) * 100⌋ ≤ 100 :=
  claim_C3_amended (target_angles Exercise.bicepCurl) [(451 / 5 : ℚ)]
    (by norm_num) (by norm_num [max_deviation, target_angles])

/-- A list of rationals all equal to a constant sums to length times that
constant. -/
lemma list_sum_of_all_eq (l : List ℚ) (c : ℚ) (h : ∀ x ∈ l, x = c) :
    l.sum = (l.length : ℚ) * c := by
  induction l with
  | nil => simp
  | cons a l ih =>
      have ha := h a (List.mem_cons_self a l)
      have hl := ih (fun x hx => h x (List.mem_cons_of_mem a hx))
      simp only [List.sum_cons, List.length_cons, Nat.cast_add, Nat.cast_one, ha, hl]
      ring

/-- Claim C5 counterexample: on the bicep-curl profile (min 30, max 160,
ideal 90, so max_deviation is 70) a session whose every angle equals
angle_min scores int((1 - 60/70) * 100) = 14, not 0: only the extreme at
distance max_deviation from ideal is scored 0. -/
theorem claim_C5_counterexample :
    (target_angles Exercise.bicepCurl).min = 30
    ∧ save_session (target_angles Exercise.bicepCurl) [(30 : ℚ)]
        = SessionScore.score 14 := by
  have habs : |(-60 : ℚ)| = 60 := by
    rw [abs_neg]
    exact abs_of_pos (by norm_num)
  constructor
  · norm_num [target_angles]
  · norm_num [save_session, max_deviation, avg_deviation, deviation, python_int,
      target_angles, habs, Int.floor_eq_iff]

/-- Claim C5 (amended): for a profile with min strictly below ideal strictly
below max and a nonempty session, angles all equal to ideal score 100, and
angles all at distance max_deviation from ideal (the extreme farther from
ideal; either extreme when the profile is symmetric about ideal) score 0. -/
theorem claim_C5_amended (t : TargetAngles) (h1 : t.min < t.ideal)
    (h2 : t.ideal < t.max) (l : List ℚ) (hne : l ≠ []) :
    ((∀ a ∈ l, a = t.ideal) → save_session t l = SessionScore.score 100)
    ∧ ((∀ a ∈ l, |a - t.ideal| = max_deviation t) →
        save_session t l = SessionScore.score 0) := by
  have hmd : 0 < max_deviation t :=
    lt_of_lt_of_le (by linarith : (0 : ℚ) < t.ideal - t.min) (le_max_left _ _)
  have hlen : l.length ≠ 0 := by simpa using hne
  have hlq : ((l.length : ℚ)) ≠ 0 := Nat.cast_ne_zero.mpr hlen
  constructor
  · intro hall
    have hdev : ∀ x ∈ l.map (deviation t), x = 0 := by
      intro x hx
      obtain ⟨a, ha, rfl⟩ := List.mem_map.mp hx
      rw [deviation, hall a ha, sub_self, abs_zero, zero_div]
      exact min_eq_right zero_le_one
    have hsum : (l.map (deviation t)).sum = 0 := List.sum_eq_zero hdev
    have havg : avg_deviation t l = 0 := by
      rw [avg_deviation, hsum, zero_div]
    unfold save_session
    rw [if_neg hlen, if_neg (ne_of_gt hmd), havg]
    norm_num [python_int]
  · intro hall
    have hdev : ∀ x ∈ l.map (deviation t), x = 1 := by
      intro x hx
      obtain ⟨a, ha, rfl⟩ := List.mem_map.mp hx
      rw [deviation, hall a ha, div_self (ne_of_gt hmd), min_self]
    have hsum : (l.map (deviation t)).sum = ((l.map (deviation t)).length : ℚ) * 1 :=
      list_sum_of_all_eq _ _ hdev
    have havg : avg_deviation t l = 1 := by
      rw [avg_deviation, hsum, mul_one]
      exact div_self (by simpa using hlq)
    unfold save_session
    rw [if_neg hlen, if_neg (ne_of_gt hmd), havg]
    norm_num [python_int]

/-- Claim C5 amended, witnessed on the bicep-curl profile with every angle at
the ideal 90. -/
theorem claim_C5_witness :
    save_session (target_angles Exercise.bicepCurl) [(90 : ℚ)]
      = SessionScore.score 100 :=
  (claim_C5_amended (target_angles Exercise.bicepCurl)
      (by norm_num [target_angles]) (by norm_num [target_angles])
      [(90 : ℚ)] (by norm_num)).1
    (by
      intro a ha
      rw [List.mem_singleton] at ha
      rw [ha]
      norm_num [target_angles])

/-- The suffix of the last n elements of a list. -/
def lastN (n : ℕ) (l : List ℚ) : List ℚ :=
  l.drop (l.length - n)

/-- Claim C4 counterexample: for the 101-element session consisting of a 0
followed by one hundred 1s, the record's angle list is the first 100
recorded values (the python slice up to index 100), which differs from the
most recent 100. -/
theorem claim_C4_counterexample :
    ((0 : ℚ) :: List.replicate 100 1).length = 101
    ∧ session_record_angles ((0 : ℚ) :: List.replicate 100 1)
        = (0 : ℚ) :: List.replicate 99 1
    ∧ session_record_angles ((0 : ℚ) :: List.replicate 100 1)
        ≠ lastN 100 ((0 : ℚ) :: List.replicate 100 1) := by
  refine ⟨by simp, ?_, ?_⟩
  · simp [session_record_angles, List.take_replicate]
  · have h1 : session_record_angles ((0 : ℚ) :: List.replicate 100 1)
        = (0 : ℚ) :: List.replicate 99 1 := by
      simp [session_record_angles, List.take_replicate]
    have h2 : lastN 100 ((0 : ℚ) :: List.replicate 100 1) = List.replicate 100 (1 : ℚ) := by
      simp [lastN]
    rw [h1, h2, List.replicate_succ]
    intro h
    exact absurd (List.cons_eq_cons.mp h).1 (by norm_num)

/-- Claim C4 (amended): the record's angles field is the earliest-first
prefix of the session's recorded angles of length min 100 (number recorded):
all of them when 100 or fewer were recorded, otherwise exactly the first
100, each position agreeing with the session's sequence. -/
theorem claim_C4_amended (l : List ℚ) :
    (session_record_angles l).length = min 100 l.length
    ∧ (l.length ≤ 100 → session_record_angles l = l)
    ∧ ∀ i : ℕ, i < 100 → (session_record_angles l)[i]? = l[i]? := by
  refine ⟨by simp [session_record_angles], ?_, ?_⟩
  · intro h
    simp [session_record_angles, List.take_of_length_le h]
  · intro i hi
    simp [session_record_angles, List.getElem?_take, hi]

/-- Claim C4 amended, witnessed at a two-element session and index 1. -/
theorem claim_C4_witness :
    (session_record_angles [(5 : ℚ), 7])[1]? = [(5 : ℚ), 7][1]? :=
  (claim_C4_amended [(5 : ℚ), 7]).2.2 1 (by norm_num)

/-- One append to the angle_buffer deque of maxlen 10 (ex.py lines 164 and
881): the new raw angle is appended and the oldest entries are evicted from
the front once more than 10 are held. -/
def angle_buffer_push (b : List ℚ) (angle : ℚ) : List ℚ :=
  let b2 := b ++ [angle]
  if 10 < b2.length then b2.drop (b2.length - 10) else b2

/-- avg_angle (ex.py line 882): sum of the buffer divided by its length. -/
def avg_angle (b : List ℚ) : ℚ :=
  b.sum / (b.length : ℚ)

/-- Pushing onto a buffer of at most 10 elements keeps the last 10 elements
of the appended list. -/
lemma angle_buffer_push_eq (b : List ℚ) (x : ℚ) :
    angle_buffer_push b x = lastN 10 (b ++ [x]) := by
  unfold angle_buffer_push lastN
  by_cases h10 : 10 < (b ++ [x]).length
  · rw [if_pos h10]
  · rw [if_neg h10]
    push_neg at h10
    rw [Nat.sub_eq_zero_of_le h10, List.drop_zero]

/-- The last-n suffix has length at most n. -/
lemma lastN_length_le (n : ℕ) (l : List ℚ) : (lastN n l).length ≤ n := by
  simp only [lastN, List.length_drop]
  omega

/-- Taking the last 10 of a list whose front was already truncated to its
last 10 gives the same result as truncating the whole list. -/
lemma lastN_lastN_append (l xs : List ℚ) :
    lastN 10 (lastN 10 l ++ xs) = lastN 10 (l ++ xs) := by
  by_cases h : l.length ≤ 10
  · rw [show lastN 10 l = l by
      simp only [lastN, Nat.sub_eq_zero_of_le h, List.drop_zero]]
  · push_neg at h
    have h1 : lastN 10 l ++ xs = (l ++ xs).drop (l.length - 10) := by
      rw [lastN, List.drop_append_of_le_length (Nat.sub_le _ _)]
    rw [h1]
    simp only [lastN, List.length_drop, List.drop_drop]
    congr 1
    simp only [List.length_append]
    omega

/-- Folding the deque append over a raw-angle stream starting from a buffer
of at most 10 samples leaves exactly the last 10 samples. -/
lemma foldl_angle_buffer (xs : List ℚ) : ∀ b : List ℚ, b.length ≤ 10 →
    xs.foldl angle_buffer_push b = lastN 10 (b ++ xs) := by
  induction xs with
  | nil =>
      intro b h
      simp only [List.foldl_nil, List.append_nil, lastN,
        Nat.sub_eq_zero_of_le h, List.drop_zero]
  | cons x xs ih =>
      intro b h
      have hlen : (angle_buffer_push b x).length ≤ 10 := by
        rw [angle_buffer_push_eq b x]
        exact lastN_length_le _ _
      rw [List.foldl_cons, ih _ hlen, angle_buffer_push_eq b x,
        lastN_lastN_append, List.append_assoc, List.singleton_append]

/-- Claim C7: the smoothing buffer holds exactly the
most recent 10 raw samples (all of them while fewer than 10 exist), and
pushing the eleven values 10, 20, ..., 110 leaves the buffer 20, ..., 110
whose average is 65, the mean of 20 through 110. -/
theorem claim_C7 :
    (∀ xs : List ℚ, xs.foldl angle_buffer_push [] = lastN 10 xs)
    ∧ List.foldl angle_buffer_push []
        [(10 : ℚ), 20, 30, 40, 50, 60, 70, 80, 90, 100, 110]
        = [(20 : ℚ), 30, 40, 50, 60, 70, 80, 90, 100, 110]
    ∧ avg_angle (List.foldl angle_buffer_push []
        [(10 : ℚ), 20, 30, 40, 50, 60, 70, 80, 90, 100, 110]) = 65 := by
  have hbase : ∀ xs : List ℚ, xs.foldl angle_buffer_push [] = lastN 10 xs := by
    intro xs
    simpa using foldl_angle_buffer xs [] (by simp)
  have hbuf : List.foldl angle_buffer_push []
      [(10 : ℚ), 20, 30, 40, 50, 60, 70, 80, 90, 100, 110]
      = [(20 : ℚ), 30, 40, 50, 60, 70, 80, 90, 100, 110] := by
    rw [hbase]
    simp [lastN]
  refine ⟨hbase, hbuf, ?_⟩
  rw [hbuf]
  norm_num [avg_angle]

/-- The direction values of process_camera_feed. The python values None
(before the first valid frame) and the string written n-o-n-e (set by the
first valid frame) behave identically in every comparison of the loop and
are merged into the single constructor none. -/
inductive RepDir where
  | none
  | up
  | down
deriving DecidableEq

/-- The rep-tracking state of process_camera_feed: the loop-local prev_angle,
direction and rep_counted (ex.py lines 830-832) and the widget field
session_reps (ex.py line 167). -/
structure RepState where
  prev_angle : Option ℚ
  direction : RepDir
  rep_counted : Bool
  rep_count : ℕ
deriving DecidableEq

/-- The state on entry to process_camera_feed: prev_angle None, direction
None, rep_counted False, session_reps 0. -/
def initial_rep_state : RepState :=
  { prev_angle := Option.none, direction := RepDir.none,
    rep_counted := false, rep_count := 0 }

/-- The rep-tracking body of process_camera_feed for one frame's smoothed
angle (ex.py lines 903-958), mirroring the branch structure of the source:
on the first valid frame only direction and prev_angle are set; afterwards
the current direction is up on a strict increase and down otherwise, the
exercise-specific completion test may count a rep once while rep_counted is
clear, the exercise-specific reset test re-clears rep_counted, and finally
direction and prev_angle are stored for the next frame. -/
def process_frame (ex : Exercise) (s : RepState) (avg_angle : ℚ) : RepState :=
  match s.prev_angle with
  | Option.none =>
      { s with direction := RepDir.none, prev_angle := some avg_angle }
  | Option.some prev_angle =>
      let current_direction := if avg_angle > prev_angle then RepDir.up else RepDir.down
      let t := target_angles ex
      let s1 :=
        match ex with
        | Exercise.bicepCurl =>
            if s.direction = RepDir.down ∧ current_direction = RepDir.up ∧
                prev_angle < t.min + 10 then
              if ¬ s.rep_counted then
                { s with rep_count := s.rep_count + 1, rep_counted := true }
              else s
            else if avg_angle > t.max - 20 then { s with rep_counted := false }
            else s
        | Exercise.pushUp =>
            if s.direction = RepDir.up ∧ current_direction = RepDir.down ∧
                prev_angle > t.max - 20 then
              if ¬ s.rep_counted then
                { s with rep_count := s.rep_count + 1, rep_counted := true }
              else s
            else if avg_angle < t.min + 20 then { s with rep_counted := false }
            else s
        | Exercise.squat =>
            if s.direction = RepDir.up ∧ current_direction = RepDir.down ∧
                prev_angle > t.max - 20 then
              if ¬ s.rep_counted then
                { s with rep_count := s.rep_count + 1, rep_counted := true }
              else s
            else if avg_angle < t.min + 20 then { s with rep_counted := false }
            else s
        | Exercise.shoulderPress =>
            if s.direction = RepDir.down ∧ current_direction = RepDir.up ∧
                prev_angle > t.max - 10 then
              if ¬ s.rep_counted then
                { s with rep_count := s.rep_count + 1, rep_counted := true }
              else s
            else if avg_angle < t.min + 10 then { s with rep_counted := false }
            else s
      { s1 with direction := current_direction, prev_angle := some avg_angle }

/-- The rep-tracking loop of process_camera_feed over a whole smoothed-angle
sequence. -/
def process_camera_feed (ex : Exercise) (s : RepState) (angles : List ℚ) : RepState :=
  angles.foldl (process_frame ex) s

/-- A smoothed-angle cycle for the bicep curl: descending from 160 to 35 and
back up to 160. -/
def bicep_curl_cycle : List ℚ :=
  [160, 150, 140, 130, 120, 110, 100, 90, 80, 70, 60, 50, 40, 35,
   45, 60, 80, 100, 120, 140, 150, 160]

/-- The same cycle with small direction reversals (noise) near the bottom
turning point and near the top. -/
def bicep_curl_noisy_cycle : List ℚ :=
  [160, 150, 145, 148, 140, 130, 120, 110, 100, 90, 80, 70, 60, 50, 40,
   35, 37, 34, 38, 36, 45, 60, 80, 100, 120, 140, 138, 142, 150, 148, 155, 160]

/-- On a bicep-curl frame whose smoothed angle does not exceed the reset
threshold max - 20, the step either leaves rep_count and rep_counted
unchanged, or counts exactly one rep from a state with rep_counted clear
and sets rep_counted. -/
lemma bicep_step_cases (s : RepState) (a : ℚ)
    (h : a ≤ (target_angles Exercise.bicepCurl).max - 20) :
    ((process_frame Exercise.bicepCurl s a).rep_count = s.rep_count ∧
      (process_frame Exercise.bicepCurl s a).rep_counted = s.rep_counted)
    ∨ (s.rep_counted = false ∧
      (process_frame Exercise.bicepCurl s a).rep_count = s.rep_count + 1 ∧
      (process_frame Exercise.bicepCurl s a).rep_counted = true) := by
  cases hp : s.prev_angle with
  | none =>
      left
      simp [process_frame, hp]
  | some p =>
      simp only [process_frame, hp]
      split_ifs with h1 h2 h3 h4 h5 h6 h7 <;>
        first
          | (exfalso; linarith)
          | (left; exact ⟨rfl, rfl⟩)
          | (right; refine ⟨by simp_all, rfl, rfl⟩)

/-- Claim C6: feeding the descending-then-ascending bicep-curl cycle once
counts exactly one rep, feeding it twice counts exactly two, the noisy
doubled cycle also counts exactly two, and in general, while the smoothed
angle never exceeds the reset threshold max - 20, at most one rep can be
added to any starting state, and none if its rep_counted flag is set: the
hysteresis admits at most one count between consecutive crossings of the
reset threshold. -/
theorem claim_C6 :
    (process_camera_feed Exercise.bicepCurl initial_rep_state bicep_curl_cycle).rep_count = 1
    ∧ (process_camera_feed Exercise.bicepCurl initial_rep_state
        (bicep_curl_cycle ++ bicep_curl_cycle)).rep_count = 2
    ∧ (process_camera_feed Exercise.bicepCurl initial_rep_state
        (bicep_curl_noisy_cycle ++ bicep_curl_noisy_cycle)).rep_count = 2
    ∧ ∀ (s : RepState) (l : List ℚ),
        (∀ a ∈ l, a ≤ (target_angles Exercise.bicepCurl).max - 20) →
        (process_camera_feed Exercise.bicepCurl s l).rep_count
          ≤ s.rep_count + (if s.rep_counted then 0 else 1) := by
  refine ⟨?_, ?_, ?_, ?_⟩
  · norm_num [process_camera_feed, bicep_curl_cycle, initial_rep_state,
      process_frame, target_angles]
  · norm_num [process_camera_feed, bicep_curl_cycle, initial_rep_state,
      process_frame, target_angles]
  · norm_num [process_camera_feed, bicep_curl_noisy_cycle, initial_rep_state,
      process_frame, target_angles]
  · intro s l
    induction l generalizing s with
    | nil =>
        intro _
        simp [process_camera_feed]
    | cons a l ih =>
        intro h
        have hstep := bicep_step_cases s a (h a (List.mem_cons_self a l))
        have hrest := ih (process_frame Exercise.bicepCurl s a)
          (fun x hx => h x (List.mem_cons_of_mem a hx))
        have hunfold : process_camera_feed Exercise.bicepCurl s (a :: l)
            = process_camera_feed Exercise.bicepCurl
                (process_frame Exercise.bicepCurl s a) l := by
          simp [process_camera_feed]
        rw [hunfold]
        rcases hstep with ⟨hc, hr⟩ | ⟨h0, hc, hr⟩
        · rw [hc, hr] at hrest
          exact hrest
        · rw [hc, hr] at hrest
          rw [h0]
          simp only [if_true, Bool.false_eq_true, if_false] at hrest ⊢
          linarith

/-- Claim C6, witnessed: from the initial state, a two-frame sequence that
never exceeds the reset threshold adds at most one rep. -/
theorem claim_C6_witness :
    (process_camera_feed Exercise.bicepCurl initial_rep_state
        [(100 : ℚ), 50]).rep_count
      ≤ initial_rep_state.rep_count
        + (if initial_rep_state.rep_counted then 0 else 1) :=
  claim_C6.2.2.2 initial_rep_state [(100 : ℚ), 50]
    (by
      intro a ha
      fin_cases ha <;> norm_num [target_angles])

/-- Claim C10: for every exercise and any two smoothed angles, the first
valid frame sets the stored direction to the none sentinel, and after two
valid frames from a fresh session state the rep count is still zero: every
completion rule requires the stored direction to be up or down, which the
second frame cannot yet satisfy. -/
theorem claim_C10 :
    ∀ (ex : Exercise) (a1 a2 : ℚ),
      (process_frame ex initial_rep_state a1).direction = RepDir.none
      ∧ (process_camera_feed ex initial_rep_state [a1, a2]).rep_count = 0 := by
  intro ex a1 a2
  constructor
  · simp [process_frame, initial_rep_state]
  · cases ex <;>
      · simp only [process_camera_feed, List.foldl_cons, List.foldl_nil,
          process_frame, initial_rep_state]
        split_ifs with h1 h2 <;> simp_all

/-- Two-argument arctangent as used by numpy: the argument of the complex
number with the given real part x and imaginary part y, in the half-open
interval from -pi exclusive to pi inclusive. -/
noncomputable def arctan2 (y x : ℝ) : ℝ :=
  Complex.arg ⟨x, y⟩

/-- calculate_angle (ex.py lines 1752-1760): the absolute difference of the
two arctangents, scaled to degrees, folded into the interval up to 180 by
subtracting from 360 when above 180. The pixel coordinates are modelled as
real pairs. -/
noncomputable def calculate_angle (a b c : ℝ × ℝ) : ℝ :=
  let radians := arctan2 (c.2 - b.2) (c.1 - b.1) - arctan2 (a.2 - b.2) (a.1 - b.1)
  let angle := |radians * 180 / Real.pi|
  if angle > 180 then 360 - angle else angle

/-- The range of the two-argument arctangent. -/
lemma arctan2_bounds (y x : ℝ) : -Real.pi < arctan2 y x ∧ arctan2 y x ≤ Real.pi :=
  ⟨Complex.neg_pi_lt_arg _, Complex.arg_le_pi _⟩

/-- Claim C8: calculate_angle is total on real coordinate inputs and always
lands in the closed interval from 0 to 180 degrees. -/
theorem claim_C8 :
    ∀ a b c : ℝ × ℝ, 0 ≤ calculate_angle a b c ∧ calculate_angle a b c ≤ 180 := by
  intro a b c
  have hπ := Real.pi_pos
  have h1 := arctan2_bounds (c.2 - b.2) (c.1 - b.1)
  have h2 := arctan2_bounds (a.2 - b.2) (a.1 - b.1)
  set t1 := arctan2 (c.2 - b.2) (c.1 - b.1)
  set t2 := arctan2 (a.2 - b.2) (a.1 - b.1)
  have habs : |(t1 - t2) * 180 / Real.pi| = |t1 - t2| * 180 / Real.pi := by
    rw [abs_div, abs_mul, abs_of_pos hπ]
    norm_num
  have hlt : |t1 - t2| < 2 * Real.pi :=
    abs_lt.mpr ⟨by linarith [h1.1, h2.2], by linarith [h1.2, h2.1]⟩
  have h360 : |t1 - t2| * 180 / Real.pi < 360 := by
    rw [div_lt_iff₀ hπ]
    nlinarith [abs_nonneg (t1 - t2)]
  have h0 : 0 ≤ |t1 - t2| * 180 / Real.pi := by
    have := abs_nonneg (t1 - t2)
    positivity
  simp only [calculate_angle, habs]
  split_ifs with hgt
  · constructor <;> linarith
  · constructor <;> linarith [not_lt.mp hgt]

/-- Claim C9: calculate_angle is invariant under swapping its first and third
points, the vertex staying in the middle. -/
theorem claim_C9 :
    ∀ a b c : ℝ × ℝ, calculate_angle a b c = calculate_angle c b a := by
  intro a b c
  simp only [calculate_angle]
  rw [show (arctan2 (a.2 - b.2) (a.1 - b.1) - arctan2 (c.2 - b.2) (c.1 - b.1)) * 180
        / Real.pi
      = -((arctan2 (c.2 - b.2) (c.1 - b.1) - arctan2 (a.2 - b.2) (a.1 - b.1)) * 180
        / Real.pi) by ring, abs_neg]
